import Mathlib

/-!
Verification development for the llm-agents library (TypeScript):
a shallow embedding of the provider adapters (`src/providers/openai.ts`,
`src/providers/google.ts`), the agent wrapper (`src/agents.ts`) and the
shared types (`src/types.ts`), together with theorems settling the frozen
claims about the specification.

Conventions of the embedding:
- JavaScript runtime values that flow through the structured-output
  machinery are modelled by `JsValue` (JSON-representable values; the
  `undefined` case of an absent option is modelled by `Option`).
- JavaScript strings are Lean `String`s; `Array.prototype` helpers that
  the source uses (`includes`, `split`, `join`, `findLastIndex`, ...) are
  embedded as explicit Lean functions over `List Char` / `List`.
- Fallible code is embedded with `Except String` (a `throw new Error(msg)`
  becomes `.error msg`); network effects are embedded as the list of
  requests a call hands to the injected `fetch` function, so that
  "throws before any network call" is the statement that this list is
  empty on the error path.
-/

namespace LlmAgents

/-- A JSON-representable JavaScript value, the shape of the `sampleObj`
option and of decoded response data. Object fields are kept in insertion
order, as JavaScript preserves string-key insertion order. -/
inductive JsValue where
  | null : JsValue
  | bool (b : Bool) : JsValue
  | num (n : Int) : JsValue
  | str (s : String) : JsValue
  | arr (xs : List JsValue) : JsValue
  | obj (fields : List (String × JsValue)) : JsValue
deriving Repr

/-- JavaScript `typeof` on a `JsValue` (`typeof null` is `"object"`). -/
def typeofJs : JsValue → String
  | .null => "object"
  | .bool _ => "boolean"
  | .num _ => "number"
  | .str _ => "string"
  | .arr _ => "object"
  | .obj _ => "object"

/-- JavaScript truthiness of a `JsValue`: `null`, `false`, `0` and `""`
are falsy, every array and object (empty or not) is truthy. -/
def truthyJs : JsValue → Bool
  | .null => false
  | .bool b => b
  | .num n => n != 0
  | .str s => s != ""
  | .arr _ => true
  | .obj _ => true

/-! ### JavaScript string helpers -/

/-- Does `needle` occur at the start of `hay`? (helper for `listIncludes`). -/
def startsWithList : List Char → List Char → Bool
  | [], _ => true
  | _ :: _, [] => false
  | n :: ns, h :: hs => n == h && startsWithList ns hs

/-- JavaScript `String.prototype.includes`: does `needle` occur as a
contiguous substring of `hay`? -/
def listIncludes (needle : List Char) : List Char → Bool
  | [] => startsWithList needle []
  | h :: hs => startsWithList needle (h :: hs) || listIncludes needle hs

/-- `msg.content.toLowerCase().includes('json')` from
`OpenAIProvider.prompt` / `OpenAIProvider.createBatch` (the inputs are
ASCII; `Char.toLower` agrees with JavaScript `toLowerCase` there). -/
def jsContainsJson (s : String) : Bool :=
  listIncludes "json".data (s.data.map Char.toLower)

/-- `s.replace(/[^a-zA-Z0-9]/g, '')` from `OpenAIProvider.createBatch`:
keep only ASCII letters and digits. -/
def sanitizeId (s : String) : String :=
  ⟨s.data.filter (fun c => c.isAlpha || c.isDigit)⟩

/-- JavaScript `String.prototype.split(sep)` for a one-character
separator, on the character list of the string. `split` never returns an
empty list (splitting `""` gives `[""]`). -/
def splitChar (sep : Char) : List Char → List (List Char)
  | [] => [[]]
  | c :: cs =>
    if c == sep then [] :: splitChar sep cs
    else
      match splitChar sep cs with
      | [] => [[c]]
      | g :: gs => (c :: g) :: gs

/-- JavaScript `Array.prototype.join(sep)` for a one-character separator. -/
def joinSep (sep : Char) : List (List Char) → List Char
  | [] => []
  | [g] => g
  | g :: gs => g ++ sep :: joinSep sep gs

/-- `batchId.includes('_') ? batchId.split('_').slice(1).join('_') : batchId`
from `OpenAIProvider.checkBatch` / `retrieveBatch` / `cancelBatch`. -/
def stripBatchId (batchId : String) : String :=
  if batchId.data.contains '_' then
    ⟨joinSep '_' ((splitChar '_' batchId.data).drop 1)⟩
  else batchId

/-! ### JSON parsing (the `JSON.parse` the source relies on)

The source calls the platform `JSON.parse`. It is embedded here as a
recursive-descent parser over the JSON fragment the library's values live
in: numbers are restricted to optionally-signed integer literals and
string escapes to the common one-character escapes (no `\uXXXX`). Claims
are parametric in this parser's verdict of which strings are valid JSON. -/

/-- JSON whitespace. -/
def isWsChar (c : Char) : Bool :=
  c == ' ' || c == '\t' || c == '\n' || c == '\r'

/-- Drop leading JSON whitespace. -/
def skipWs (cs : List Char) : List Char :=
  cs.dropWhile isWsChar

/-- The opening brace character, `{`. -/
def obrace : Char := Char.ofNat 123

/-- The closing brace character, `}`. -/
def cbrace : Char := Char.ofNat 125

/-- Parse the body of a JSON string literal (after the opening quote),
returning the decoded string and the input after the closing quote. -/
def parseStringBody : List Char → Option (String × List Char)
  | [] => none
  | c :: cs =>
    if c == '"' then some ("", cs)
    else if c == '\\' then
      match cs with
      | [] => none
      | e :: cs2 =>
        let dec : Option Char :=
          if e == '"' then some '"'
          else if e == '\\' then some '\\'
          else if e == '/' then some '/'
          else if e == 'n' then some '\n'
          else if e == 't' then some '\t'
          else if e == 'r' then some '\r'
          else if e == 'b' then some (Char.ofNat 8)
          else if e == 'f' then some (Char.ofNat 12)
          else none
        match dec with
        | some d =>
          match parseStringBody cs2 with
          | some (s, rest) => some (⟨d :: s.data⟩, rest)
          | none => none
        | none => none
    else
      match parseStringBody cs with
      | some (s, rest) => some (⟨c :: s.data⟩, rest)
      | none => none

/-- Split a leading run of decimal digits from the input. -/
def parseDigits : List Char → List Char × List Char
  | [] => ([], [])
  | c :: cs =>
    if c.isDigit then
      let (ds, rest) := parseDigits cs
      (c :: ds, rest)
    else ([], c :: cs)

/-- Decimal value of a digit run. -/
def digitsToNat (ds : List Char) : Nat :=
  ds.foldl (fun a c => a * 10 + (c.toNat - 48)) 0

/-- Parse an optionally-signed integer literal. -/
def parseNumber (cs : List Char) : Option (Int × List Char) :=
  match cs with
  | '-' :: rest =>
    match parseDigits rest with
    | ([], _) => none
    | (ds, r) => some (-(digitsToNat ds : Int), r)
  | _ =>
    match parseDigits cs with
    | ([], _) => none
    | (ds, r) => some ((digitsToNat ds : Int), r)

mutual

/-- Parse one JSON value (fuel-indexed recursive descent). -/
def parseValue : Nat → List Char → Option (JsValue × List Char)
  | 0, _ => none
  | fuel + 1, cs0 =>
    let cs := skipWs cs0
    match cs with
    | [] => none
    | c :: rest =>
      if c == '"' then
        match parseStringBody rest with
        | some (s, r) => some (.str s, r)
        | none => none
      else if c == '[' then
        match skipWs rest with
        | ']' :: r2 => some (.arr [], r2)
        | cs2 =>
          match parseArrayTail fuel cs2 with
          | some (vs, r) => some (.arr vs, r)
          | none => none
      else if c == obrace then
        match skipWs rest with
        | d :: r2 =>
          if d == cbrace then some (.obj [], r2)
          else
            match parseObjTail fuel (d :: r2) with
            | some (fs, r) => some (.obj fs, r)
            | none => none
        | [] => none
      else if startsWithList "null".data cs then some (.null, cs.drop 4)
      else if startsWithList "true".data cs then some (.bool true, cs.drop 4)
      else if startsWithList "false".data cs then some (.bool false, cs.drop 5)
      else
        match parseNumber cs with
        | some (n, r) => some (.num n, r)
        | none => none

/-- Parse the comma-separated elements of a non-empty JSON array, up to
and including the closing bracket. -/
def parseArrayTail : Nat → List Char → Option (List JsValue × List Char)
  | 0, _ => none
  | fuel + 1, cs =>
    match parseValue fuel cs with
    | none => none
    | some (v, r) =>
      match skipWs r with
      | ',' :: r2 =>
        match parseArrayTail fuel r2 with
        | some (vs, r3) => some (v :: vs, r3)
        | none => none
      | ']' :: r2 => some ([v], r2)
      | _ => none

/-- Parse the comma-separated members of a non-empty JSON object, up to
and including the closing brace. -/
def parseObjTail : Nat → List Char → Option (List (String × JsValue) × List Char)
  | 0, _ => none
  | fuel + 1, cs =>
    match skipWs cs with
    | '"' :: r =>
      match parseStringBody r with
      | none => none
      | some (k, r2) =>
        match skipWs r2 with
        | ':' :: r3 =>
          match parseValue fuel r3 with
          | none => none
          | some (v, r4) =>
            match skipWs r4 with
            | ',' :: r5 =>
              match parseObjTail fuel r5 with
              | some (fs, r6) => some ((k, v) :: fs, r6)
              | none => none
            | d :: r5 =>
              if d == cbrace then some ([(k, v)], r5) else none
            | [] => none
        | _ => none
    | _ => none

end

/-- `JSON.parse`: succeeds iff the whole input (modulo surrounding
whitespace) is one JSON value of the modelled fragment. -/
def jsonParse (text : String) : Option JsValue :=
  match parseValue (text.length + 1) text.data with
  | some (v, rest) => if skipWs rest == [] then some v else none
  | none => none

/-! ### JSON serialization

`JSON.stringify` is used by the source in two places: compactly, to build
the batch `.jsonl` payload, and with a replacer plus 2-space indentation
inside `enhancePromptWithStructure`. Both are embedded below (string
escaping covers the characters the escape table of `parseStringBody`
decodes). -/

/-- Escape one character for a JSON string literal. -/
def escapeJsonChar (c : Char) : String :=
  if c == '"' then "\\\""
  else if c == '\\' then "\\\\"
  else if c == '\n' then "\\n"
  else if c == '\t' then "\\t"
  else if c == '\r' then "\\r"
  else ⟨[c]⟩

/-- Render a JSON string literal. -/
def escapeJsonString (s : String) : String :=
  "\"" ++ String.join (s.data.map escapeJsonChar) ++ "\""

mutual

/-- `JSON.stringify(v)` without replacer or indentation. -/
def jsonStringifyCompact : JsValue → String
  | .null => "null"
  | .bool b => if b then "true" else "false"
  | .num n => toString n
  | .str s => escapeJsonString s
  | .arr xs => "[" ++ stringifyItemsCompact xs ++ "]"
  | .obj fs => ⟨[obrace]⟩ ++ stringifyFieldsCompact fs ++ ⟨[cbrace]⟩

/-- Comma-separated compact rendering of array elements. -/
def stringifyItemsCompact : List JsValue → String
  | [] => ""
  | [x] => jsonStringifyCompact x
  | x :: y :: xs => jsonStringifyCompact x ++ "," ++ stringifyItemsCompact (y :: xs)

/-- Comma-separated compact rendering of object members. -/
def stringifyFieldsCompact : List (String × JsValue) → String
  | [] => ""
  | [(k, v)] => escapeJsonString k ++ ":" ++ jsonStringifyCompact v
  | (k, v) :: f :: fs =>
    escapeJsonString k ++ ":" ++ jsonStringifyCompact v ++ ","
      ++ stringifyFieldsCompact (f :: fs)

end

/-- The replacement the `enhancePromptWithStructure` replacer performs on
the first element of a non-empty array:
`typeof value[0] === 'object' ? {} : 'example'`. -/
def arrayElemRep (x : JsValue) : JsValue :=
  if typeofJs x == "object" then .obj [] else .str "example"

/-- `n` spaces. -/
def indentSp (n : Nat) : String :=
  ⟨List.replicate n ' '⟩

mutual

/-- `JSON.stringify(sampleObj, replacer, 2)` from
`enhancePromptWithStructure` (identical in `OpenAIProvider` and
`GoogleProvider`): 2-space-indented serialization where the replacer
collapses every non-empty array to a single representative element
(`{}` when the first element has `typeof` `"object"`, the string
`"example"` otherwise). `depth` is the nesting depth of `v`. -/
def stringifyStructure (depth : Nat) : JsValue → String
  | .null => "null"
  | .bool b => if b then "true" else "false"
  | .num n => toString n
  | .str s => escapeJsonString s
  | .arr [] => "[]"
  | .arr (x :: _) =>
    let elemStr : String :=
      match arrayElemRep x with
      | .obj _ => ⟨[obrace]⟩ ++ ⟨[cbrace]⟩
      | _ => escapeJsonString "example"
    "[\n" ++ indentSp (2 * (depth + 1)) ++ elemStr ++ "\n" ++ indentSp (2 * depth) ++ "]"
  | .obj [] => ⟨[obrace]⟩ ++ ⟨[cbrace]⟩
  | .obj (f :: fs) =>
    ⟨[obrace]⟩ ++ "\n" ++ stringifyStructureFields depth (f :: fs) ++ "\n"
      ++ indentSp (2 * depth) ++ ⟨[cbrace]⟩

/-- Indented `"key": value` members, comma-and-newline separated. -/
def stringifyStructureFields (depth : Nat) : List (String × JsValue) → String
  | [] => ""
  | [(k, v)] =>
    indentSp (2 * (depth + 1)) ++ escapeJsonString k ++ ": " ++ stringifyStructure (depth + 1) v
  | (k, v) :: f :: fs =>
    indentSp (2 * (depth + 1)) ++ escapeJsonString k ++ ": " ++ stringifyStructure (depth + 1) v
      ++ ",\n" ++ stringifyStructureFields depth (f :: fs)

end

/-! ### Messages and prompt enhancement -/

/-- `PromptMessage` from `src/types.ts`; the role is one of
`"developer"`, `"user"`, `"assistant"`. -/
structure PromptMessage where
  role : String
  content : String
deriving Repr, DecidableEq

/-- JavaScript `Array.prototype.findLastIndex`: the index of the last
element satisfying `p`, or `-1`. -/
def jsFindLastIndex {α : Type} (p : α → Bool) : List α → Int
  | [] => -1
  | x :: xs =>
    let r := jsFindLastIndex p xs
    if 0 ≤ r then r + 1 else if p x then 0 else -1

/-- The structure text computed by `enhancePromptWithStructure`:
`typeof sampleObj === 'object' ? JSON.stringify(sampleObj, replacer, 2) : typeof sampleObj`. -/
def structureOf (sampleObj : JsValue) : String :=
  if typeofJs sampleObj == "object" then stringifyStructure 0 sampleObj
  else typeofJs sampleObj

/-- The instruction sentence injected by `enhancePromptWithStructure`. -/
def structureInstruction (structureStr : String) : String :=
  "Please provide the response in the following JSON structure: " ++ structureStr

/-- `enhancePromptWithStructure` (identical private method of
`OpenAIProvider` and `GoogleProvider`): copy the message list, then
append the structure instruction to the content of the last message with
role `user` (replacing that one element of the copy), or push a fresh
user message carrying only the instruction when no user message exists.
The JavaScript method mutates neither the caller's array (it spreads it
into a copy) nor any caller-owned message object (it builds a fresh
object for the one replaced index); the embedding is a pure function of
the input list. -/
def enhancePromptWithStructure (messages : List PromptMessage) (sampleObj : JsValue) :
    List PromptMessage :=
  let structureStr := structureOf sampleObj
  let idx := jsFindLastIndex (fun m => m.role == "user") messages
  if 0 ≤ idx then
    match messages.get? idx.toNat with
    | some m =>
      messages.set idx.toNat
        { m with content := m.content ++ "\n\n" ++ structureInstruction structureStr }
    | none => messages
  else
    messages ++ [{ role := "user", content := structureInstruction structureStr }]

/-- Append `suffix` to the content of the last `user` message, if any
(spec-level description used to state the claim about
`enhancePromptWithStructure`). -/
def appendToLastUser (suffix : String) : List PromptMessage → Option (List PromptMessage)
  | [] => none
  | m :: ms =>
    match appendToLastUser suffix ms with
    | some ms2 => some (m :: ms2)
    | none =>
      if m.role == "user" then some ({ m with content := m.content ++ suffix } :: ms)
      else none

/-- The claim's description of prompt-injection enhancement: the input
list with the instruction appended to the last user message, or with a
new user message carrying only the instruction appended at the end. -/
def enhanceSpec (messages : List PromptMessage) (instr : String) : List PromptMessage :=
  match appendToLastUser ("\n\n" ++ instr) messages with
  | some ms => ms
  | none => messages ++ [{ role := "user", content := instr }]

/-! ### Model descriptors (`src/types.ts` values, `getModels`) -/

/-- `ModelCapabilities` from `src/types.ts`. -/
structure ModelCapabilities where
  structuredOutput : Bool
  batchRequests : Bool
deriving Repr, DecidableEq

/-- `ModelInfo` from `src/types.ts` (the `ModelName` and `Provider`
enums are string-valued; their wire values are used directly). -/
structure ModelInfo where
  id : String
  name : String
  provider : String
  capabilities : ModelCapabilities
deriving Repr, DecidableEq

/-- `OpenAIProvider.getModels()`. -/
def openaiGetModels : List ModelInfo :=
  [{ id := "gpt-4o-mini", name := "GPT-4o-mini", provider := "openai",
     capabilities := { structuredOutput := true, batchRequests := true } }]

/-- `GoogleProvider.getModels()`. -/
def googleGetModels : List ModelInfo :=
  [{ id := "gemini-2.0-flash", name := "Gemini 2.0 Flash", provider := "google",
     capabilities := { structuredOutput := true, batchRequests := false } },
   { id := "gemini-1.5-pro", name := "Gemini 1.5", provider := "google",
     capabilities := { structuredOutput := true, batchRequests := false } }]

/-! ### Structured-output request detection and result decoding -/

/-- `options.sampleObj && typeof options.sampleObj !== 'string'`, the
`needsStructuredOutput` expression of `OpenAIProvider.prompt`,
`OpenAIProvider.createBatch` and `GoogleProvider.prompt` (identical in
all three): JavaScript truthiness of the sample value conjoined with its
`typeof` not being `"string"`. An absent option is `none`. -/
def needsStructuredOutput (sampleObj : Option JsValue) : Bool :=
  match sampleObj with
  | none => false
  | some v => truthyJs v && typeofJs v != "string"

/-- `parseJsonResponse` (identical private method of `OpenAIProvider`
and `GoogleProvider`): `JSON.parse` wrapped to throw
`Failed to parse JSON response` on invalid input (the embedding drops
the interpolated platform error detail from the message). -/
def parseJsonResponse (text : String) : Except String JsValue :=
  match jsonParse text with
  | some v => .ok v
  | none => .error "Failed to parse JSON response"

/-- The `data` field of a completion result: either the JSON parse of
the completion text or the raw text fallback. -/
inductive ResultData where
  | parsed (v : JsValue) : ResultData
  | raw (s : String) : ResultData
deriving Repr

/-- The `data` computation of `OpenAIProvider.prompt` (lines 285-294):
when structured output was requested, try `parseJsonResponse` and fall
back to the raw text on failure; otherwise the raw text. Total — the
`catch` turns every decode failure into the fallback. -/
def openaiComputeData (needsSO : Bool) (text : String) : ResultData :=
  if needsSO then
    match parseJsonResponse text with
    | .ok v => .parsed v
    | .error _ => .raw text
  else .raw text

/-- The `data` computation of `GoogleProvider.prompt` (lines 198-207),
textually identical to the OpenAI one. -/
def googleComputeData (needsSO : Bool) (text : String) : ResultData :=
  if needsSO then
    match parseJsonResponse text with
    | .ok v => .parsed v
    | .error _ => .raw text
  else .raw text

/-! ### OpenAI provider — single completion path -/

/-- The slice of `LLMRequestOptions` the claims depend on. Generation
parameters (temperature, topP, penalties, seed, ...) are pass-through
numbers that never influence control flow and are omitted. -/
structure LLMRequestOptions where
  sampleObj : Option JsValue := none
  agentName : Option String := none
  user : Option String := none
deriving Repr

/-- The slice of `OpenAITypes.ChatCompletionRequest` the claims depend
on: the wire model id, the outgoing messages, and whether
`response_format: { type: 'json_object' }` was attached. -/
structure ChatRequestCore where
  model : String
  messages : List PromptMessage
  responseFormatJson : Bool
deriving Repr, DecidableEq

/-- The error thrown when the hard `"json"`-substring precondition is
violated. -/
def jsonErrorMessage : String :=
  "A message for a structured output must contain \"json\""

/-- `OpenAIProvider.prompt` up to (but not including) the network call:
model resolution, structured-output detection, the `"json"`-substring
precondition, and the choice between native `response_format` and prompt
injection. -/
def openaiPromptPreflight (messages : List PromptMessage) (model : String)
    (options : LLMRequestOptions) : Except String ChatRequestCore :=
  match openaiGetModels.find? (fun m => m.name == model) with
  | none => .error ("Model not found: " ++ model)
  | some modelInfo =>
    let needsSO := needsStructuredOutput options.sampleObj
    if needsSO && !(messages.any (fun m => jsContainsJson m.content)) then
      .error jsonErrorMessage
    else if needsSO && modelInfo.capabilities.structuredOutput then
      .ok { model := modelInfo.id, messages := messages, responseFormatJson := true }
    else if needsSO && !modelInfo.capabilities.structuredOutput then
      .ok { model := modelInfo.id,
            messages :=
              match options.sampleObj with
              | some v => enhancePromptWithStructure messages v
              | none => messages,
            responseFormatJson := false }
    else
      .ok { model := modelInfo.id, messages := messages, responseFormatJson := false }

/-- The URLs `OpenAIProvider.prompt` hands to the injected fetch
function: none when preflight throws, exactly the chat-completions
endpoint otherwise. -/
def openaiPromptFetches (baseUrl : String) (messages : List PromptMessage) (model : String)
    (options : LLMRequestOptions) : List String :=
  match openaiPromptPreflight messages model options with
  | .error _ => []
  | .ok _ => [baseUrl ++ "/chat/completions"]

/-! ### OpenAI provider — batch creation -/

/-- `BatchRequest` from `src/types.ts`. Modelled from the spec: the
`types.ts` revision declaring `BatchRequest` (and `isBatchRequest`,
`CreateBatchResponse`) is not under `src/`; from the spec's batch-item
description and the uses in `OpenAIProvider.createBatch` and
`LLMAgent.createBatch`, a batch item carries an optional item-supplied
id and a message list. -/
structure BatchRequest where
  id : Option String := none
  messages : List PromptMessage
deriving Repr, DecidableEq

/-- The slice of `BatchRequestOptions` the claims depend on (generation
parameters and the unused `priority`/`failureThreshold`/`timeoutSeconds`
fields are omitted; `timeoutSeconds` only shapes the completion-window
string, which no claim mentions). -/
structure BatchRequestOptions where
  sampleObj : Option JsValue := none
  batchName : Option String := none
  agentName : Option String := none
deriving Repr

/-- The correlation-id derivation inlined in the `createBatch` loop
(lines 336-343): start from `` `${Date.now()}_${i}` ``, prepend the
sanitized batch name when `options.batchName` is truthy, prepend the
sanitized agent name when `options.agentName` is truthy, and finally
`prompt.id?.replace(/[^a-zA-Z0-9]/g, '') || requestId` — the sanitized
item-supplied id replaces everything when it is non-empty. `nowMs` is
the `Date.now()` reading of this iteration. -/
def deriveRequestId (nowMs : Nat) (i : Nat) (options : BatchRequestOptions)
    (promptId : Option String) : String :=
  let rid := toString nowMs ++ "_" ++ toString i
  let rid :=
    match options.batchName with
    | some bn => if bn != "" then sanitizeId bn ++ "_" ++ rid else rid
    | none => rid
  let rid :=
    match options.agentName with
    | some an => if an != "" then sanitizeId an ++ "_" ++ rid else rid
    | none => rid
  match promptId with
  | some p => if sanitizeId p != "" then sanitizeId p else rid
  | none => rid

/-- One line of the `.jsonl` batch upload
(`OpenAITypes.BatchRequest`). -/
structure OpenAIBatchLine where
  custom_id : String
  method : String
  url : String
  body : ChatRequestCore
deriving Repr, DecidableEq

/-- The modelled JSON encoding of one batch line, used for the 200MB
payload-size guard (numeric sampling fields of the body are omitted, as
in `ChatRequestCore`). -/
def batchLineToJsValue (line : OpenAIBatchLine) : JsValue :=
  .obj [("custom_id", .str line.custom_id),
        ("method", .str line.method),
        ("url", .str line.url),
        ("body", .obj
          [("model", .str line.body.model),
           ("messages", .arr (line.body.messages.map (fun m =>
             .obj [("role", .str m.role), ("content", .str m.content)])))])]

/-- The `createBatch` per-item loop (lines 333-398): derive the
correlation id, validate the item's message list, build the chat request
(native `response_format` or prompt injection, as in the single path),
and guard the accumulated `.jsonl` length. `i` is the loop index and
`jsonlLen` the length of the `.jsonl` text built so far. -/
def openaiCreateBatchLoop (now : Nat → Nat) (modelInfo : ModelInfo)
    (options : BatchRequestOptions) (needsSO : Bool) :
    Nat → Nat → List BatchRequest → Except String (List OpenAIBatchLine)
  | _, _, [] => .ok []
  | i, jsonlLen, p :: rest =>
    let requestId := deriveRequestId (now i) i options p.id
    if p.messages.length == 0 then
      .error ("Prompt " ++ toString i ++ " is empty")
    else if p.messages.length > 2048 then
      .error ("Prompt " ++ toString i ++ " exceeds the maximum number of messages (2048)")
    else
      let chatRequest : ChatRequestCore :=
        { model := modelInfo.id,
          messages :=
            if needsSO && !modelInfo.capabilities.structuredOutput then
              match options.sampleObj with
              | some v => enhancePromptWithStructure p.messages v
              | none => p.messages
            else p.messages,
          responseFormatJson := needsSO && modelInfo.capabilities.structuredOutput }
      let line : OpenAIBatchLine :=
        { custom_id := requestId, method := "POST", url := "/v1/chat/completions",
          body := chatRequest }
      let newLen := jsonlLen + (jsonStringifyCompact (batchLineToJsValue line)).length + 1
      if newLen > 200000000 then
        .error "The total size of the batch requests exceeds 200MB"
      else
        match openaiCreateBatchLoop now modelInfo options needsSO (i + 1) newLen rest with
        | .ok lines => .ok (line :: lines)
        | .error e => .error e

/-- `OpenAIProvider.createBatch` up to (but not including) the file
upload: model resolution, batch-capability and batch-size checks, the
global `"json"`-substring precondition
(`prompts.some(m => m.messages.some(msg => msg.content.toLowerCase().includes('json')))`),
then the per-item loop. -/
def openaiCreateBatchPreflight (now : Nat → Nat) (prompts : List BatchRequest)
    (model : String) (options : BatchRequestOptions) :
    Except String (List OpenAIBatchLine) :=
  match openaiGetModels.find? (fun m => m.name == model) with
  | none => .error ("Model not found: " ++ model)
  | some modelInfo =>
    if !modelInfo.capabilities.batchRequests then
      .error ("Model " ++ model ++ " does not support batch requests")
    else if prompts.length > 50000 then
      .error "Maximum number of requests in a batch is 50000"
    else if needsStructuredOutput options.sampleObj
        && !(prompts.any (fun p => p.messages.any (fun m => jsContainsJson m.content))) then
      .error jsonErrorMessage
    else
      openaiCreateBatchLoop now modelInfo options
        (needsStructuredOutput options.sampleObj) 0 0 prompts

/-- `CreateBatchResponse` from `src/types.ts` (modelled from the spec:
the declaring `types.ts` revision is not under `src/`; the value
returned at lines 433-436 carries the correlation ids and the external
job id). -/
structure CreateBatchResponse where
  requestIds : List String
  batchId : String
deriving Repr, DecidableEq

/-- The value `createBatch` returns after the network calls succeed:
`batchRequests.map(request => request.custom_id)` paired with the
backend's batch id. -/
def openaiCreateBatchResult (lines : List OpenAIBatchLine) (batchRespId : String) :
    CreateBatchResponse :=
  { requestIds := lines.map (fun l => l.custom_id), batchId := batchRespId }

/-- The URLs `OpenAIProvider.createBatch` hands to the injected fetch
function: none when preflight throws, the file upload followed by the
batch creation otherwise. -/
def openaiCreateBatchFetches (baseUrl : String) (now : Nat → Nat)
    (prompts : List BatchRequest) (model : String) (options : BatchRequestOptions) :
    List String :=
  match openaiCreateBatchPreflight now prompts model options with
  | .error _ => []
  | .ok _ => [baseUrl ++ "/files", baseUrl ++ "/batches"]

/-! ### OpenAI provider — batch status, retrieval, cancellation -/

/-- `BatchStatus` from `src/types.ts`. -/
structure BatchStatus where
  id : String
  status : String
  outputFileId : Option String := none
  error : Option String := none
deriving Repr, DecidableEq

/-- The fields of `OpenAITypes.BatchStatusResponse` that `checkBatch`
reads. -/
structure BatchStatusResponse where
  id : String
  status : String
  output_file_id : Option String := none
  error_file_id : Option String := none
deriving Repr, DecidableEq

/-- `OpenAIProvider.mapOpenAIBatchStatus`. -/
def mapOpenAIBatchStatus (status : String) : String :=
  if status == "validating" || status == "processing" then "processing"
  else if status == "completed" then "completed"
  else if status == "failed" || status == "cancelled" || status == "cancelling"
      || status == "expired" then "failed"
  else "pending"

/-- The URL `OpenAIProvider.checkBatch` fetches: the batch endpoint
addressed by the underscore-stripped id. -/
def openaiCheckBatchUrl (baseUrl batchId : String) : String :=
  baseUrl ++ "/batches/" ++ stripBatchId batchId

/-- The `BatchStatus` value `OpenAIProvider.checkBatch` builds from the
backend's status payload: the `id` field keeps the original (possibly
prefixed) `batchId`; `error` is populated from a truthy
`error_file_id`. -/
def openaiCheckBatch (batchId : String) (statusData : BatchStatusResponse) : BatchStatus :=
  { id := batchId,
    status := mapOpenAIBatchStatus statusData.status,
    outputFileId := statusData.output_file_id,
    error :=
      match statusData.error_file_id with
      | some e => if e != "" then some ("Error file ID: " ++ e) else none
      | none => none }

/-- The URL `OpenAIProvider.cancelBatch` fetches. -/
def openaiCancelBatchUrl (baseUrl batchId : String) : String :=
  baseUrl ++ "/batches/" ++ stripBatchId batchId ++ "/cancel"

/-- The URLs `OpenAIProvider.retrieveBatch` fetches once the status
check reports completion: the status request (issued through
`checkBatch`, hence underscore-stripped) followed by the output-file
content download. -/
def openaiRetrieveBatchUrls (baseUrl batchId outputFileId : String) : List String :=
  [openaiCheckBatchUrl baseUrl batchId,
   baseUrl ++ "/files/" ++ outputFileId ++ "/content"]

/-- The fields of `response.body` that the `retrieveBatch` loop reads:
`choices[0].message.content` and the usage counters. -/
structure BatchLineBody where
  content : String
  prompt_tokens : Nat
  completion_tokens : Nat
  total_tokens : Nat
deriving Repr, DecidableEq

/-- One output line decoded into the declared wire shape
`OpenAITypes.BatchChatCompletionResponse`: the `error` payload (its
presence is what the code tests) and the optional response body. -/
structure BatchLineRec where
  custom_id : String
  error : Option String := none
  response : Option BatchLineBody := none
deriving Repr, DecidableEq

/-- One raw line of the downloaded output document after the per-line
`JSON.parse`: either the parse threw (`unparsable`) or it produced a
value of the declared wire shape. The string-level split
(`jsonlContent.trim().split('\n')`) and the per-line `JSON.parse` of
lines conforming to `OpenAITypes.BatchChatCompletionResponse` are
abstracted into this type. -/
inductive RawLine where
  | unparsable : RawLine
  | line (r : BatchLineRec) : RawLine
deriving Repr, DecidableEq

/-- A `CompletionResponse` as assembled by `retrieveBatch` (usage
fields flattened). -/
structure BatchCompletionResult where
  text : String
  data : ResultData
  promptTokens : Nat
  completionTokens : Nat
  totalTokens : Nat
  model : String
  provider : String
deriving Repr

/-- `sampleObj && typeof sampleObj === 'object'`, the structured-parse
condition of the `retrieveBatch` loop (line 531) — note it differs from
`needsStructuredOutput`: it requires `typeof` to be exactly
`"object"`. -/
def structuredObjectSample (sampleObj : Option JsValue) : Bool :=
  match sampleObj with
  | none => false
  | some v => truthyJs v && typeofJs v == "object"

/-- Assemble one result pushed by the `retrieveBatch` loop. -/
def mkBatchResult (body : BatchLineBody) (data : ResultData) (model : String) :
    BatchCompletionResult :=
  { text := body.content, data := data,
    promptTokens := body.prompt_tokens,
    completionTokens := body.completion_tokens,
    totalTokens := body.total_tokens,
    model := "openai/" ++ model, provider := "openai" }

/-- The per-line loop of `OpenAIProvider.retrieveBatch` (lines 511-558):
skip lines that failed to parse, carry an error payload, or lack a
response body; when a truthy object-typed sample was supplied, JSON-parse
the completion text and skip the line on parse failure, otherwise take
the raw text; push one result per surviving line in line order. -/
def openaiRetrieveBatchProcess (sampleObj : Option JsValue) (model : String) :
    List RawLine → List BatchCompletionResult
  | [] => []
  | .unparsable :: rest => openaiRetrieveBatchProcess sampleObj model rest
  | .line r :: rest =>
    if r.error.isSome || r.response.isNone then
      openaiRetrieveBatchProcess sampleObj model rest
    else
      match r.response with
      | none => openaiRetrieveBatchProcess sampleObj model rest
      | some body =>
        if structuredObjectSample sampleObj then
          match parseJsonResponse body.content with
          | .ok v =>
            mkBatchResult body (.parsed v) model
              :: openaiRetrieveBatchProcess sampleObj model rest
          | .error _ => openaiRetrieveBatchProcess sampleObj model rest
        else
          mkBatchResult body (.raw body.content) model
            :: openaiRetrieveBatchProcess sampleObj model rest

/-- Spec-level description of what the loop does to one line (used to
state the amended claim): `none` when the line is skipped — unparsable,
error payload, missing response body, or (object-typed sample) invalid
JSON completion text — and the assembled result otherwise. -/
def retrieveLineResult (sampleObj : Option JsValue) (model : String) :
    RawLine → Option BatchCompletionResult
  | .unparsable => none
  | .line r =>
    match r.response with
    | none => none
    | some body =>
      if r.error.isSome then none
      else if structuredObjectSample sampleObj then
        match parseJsonResponse body.content with
        | .ok v => some (mkBatchResult body (.parsed v) model)
        | .error _ => none
      else some (mkBatchResult body (.raw body.content) model)

/-- What the original claim says the loop does to one line: only
unparsable lines, error payloads and missing response bodies are
skipped; every surviving line is decoded the same way as the
single-completion path (graceful degradation to raw text on parse
failure). -/
def retrieveLineResultAsClaimed (sampleObj : Option JsValue) (model : String) :
    RawLine → Option BatchCompletionResult
  | .unparsable => none
  | .line r =>
    match r.response with
    | none => none
    | some body =>
      if r.error.isSome then none
      else
        some (mkBatchResult body
          (openaiComputeData (needsStructuredOutput sampleObj) body.content) model)

/-! ### Google provider -/

/-- The value `GoogleProvider.objectToGoogleSchema` returns: the JS
`null` returned for null/undefined samples, a primitive type marker
`{ type: t }`, `{ type: 'ARRAY', items }`, or
`{ type: 'OBJECT', properties }`. -/
inductive GoogleSchema where
  | nullValue : GoogleSchema
  | prim (t : String) : GoogleSchema
  | array (items : GoogleSchema) : GoogleSchema
  | object (properties : List (String × GoogleSchema)) : GoogleSchema
deriving Repr

/-- `GoogleProvider.getGoogleSchemaType`. -/
def getGoogleSchemaType (jsType : String) : String :=
  if jsType == "string" then "STRING"
  else if jsType == "number" then "NUMBER"
  else if jsType == "boolean" then "BOOLEAN"
  else "STRING"

mutual

/-- `GoogleProvider.objectToGoogleSchema`: `null`/`undefined` return the
JS `null`; other primitives map through `getGoogleSchemaType ∘ typeof`;
an empty array defaults to an array of strings; a non-empty array
recurses on its first element only; an object recurses over its own
keys in enumeration order. Total by construction. -/
def objectToGoogleSchema : JsValue → GoogleSchema
  | .null => .nullValue
  | .bool b => .prim (getGoogleSchemaType (typeofJs (.bool b)))
  | .num n => .prim (getGoogleSchemaType (typeofJs (.num n)))
  | .str s => .prim (getGoogleSchemaType (typeofJs (.str s)))
  | .arr [] => .array (.prim "STRING")
  | .arr (x :: _) => .array (objectToGoogleSchema x)
  | .obj fields => .object (googleSchemaFields fields)

/-- The `Object.entries` recursion of `objectToGoogleSchema`. -/
def googleSchemaFields : List (String × JsValue) → List (String × GoogleSchema)
  | [] => []
  | (k, v) :: rest => (k, objectToGoogleSchema v) :: googleSchemaFields rest

end

/-- The slice of the Google `generateContent` request the claims depend
on: the outgoing messages (before role formatting), whether
`response_mime_type: 'application/json'` was set, and the attached
`response_schema` if any. The `v1` → `v1beta` base-URL swap is
claim-irrelevant and omitted. -/
structure GeminiRequestCore where
  messages : List PromptMessage
  responseMimeJson : Bool
  responseSchema : Option GoogleSchema := none
deriving Repr

/-- `GoogleProvider.prompt` up to (but not including) the network call:
model resolution, structured-output detection and the native-schema /
prompt-injection choice (Google has no `"json"`-substring
precondition). -/
def googlePromptPreflight (messages : List PromptMessage) (model : String)
    (options : LLMRequestOptions) : Except String GeminiRequestCore :=
  match googleGetModels.find? (fun m => m.name == model) with
  | none => .error ("Model not found: " ++ model)
  | some modelInfo =>
    let needsSO := needsStructuredOutput options.sampleObj
    if needsSO then
      if modelInfo.capabilities.structuredOutput then
        .ok { messages := messages, responseMimeJson := true,
              responseSchema := options.sampleObj.map objectToGoogleSchema }
      else
        .ok { messages :=
                match options.sampleObj with
                | some v => enhancePromptWithStructure messages v
                | none => messages,
              responseMimeJson := true, responseSchema := none }
    else
      .ok { messages := messages, responseMimeJson := false, responseSchema := none }

/-- `GoogleProvider.createBatch`: the fetch-URL list (always empty — the
method never reaches the network) paired with the thrown error. -/
def googleCreateBatch (model : String) : List String × Except String String :=
  match googleGetModels.find? (fun m => m.name == model) with
  | none => ([], .error ("Model not found: " ++ model))
  | some _ =>
    ([], .error ("Batch requests are not supported by the Google Gemini API for model "
      ++ model))

/-- `GoogleProvider.checkBatch`: no fetch, always throws. -/
def googleCheckBatch (model : String) : List String × Except String BatchStatus :=
  match googleGetModels.find? (fun m => m.name == model) with
  | none => ([], .error ("Model not found: " ++ model))
  | some _ =>
    ([], .error ("Batch operations are not supported by the Google Gemini API for model "
      ++ model))

/-- `GoogleProvider.retrieveBatch`: no fetch, always throws. -/
def googleRetrieveBatch (model : String) :
    List String × Except String (List BatchCompletionResult) :=
  match googleGetModels.find? (fun m => m.name == model) with
  | none => ([], .error ("Model not found: " ++ model))
  | some _ =>
    ([], .error ("Batch operations are not supported by the Google Gemini API for model "
      ++ model))

/-- `GoogleProvider.cancelBatch`: no fetch, always throws. -/
def googleCancelBatch (model : String) : List String × Except String Bool :=
  match googleGetModels.find? (fun m => m.name == model) with
  | none => ([], .error ("Model not found: " ++ model))
  | some _ =>
    ([], .error ("Batch operations are not supported by the Google Gemini API for model "
      ++ model))

/-! ### Agent wrapper (`src/agents.ts`) -/

/-- One element of the array handed to `LLMAgent.createBatch`: either a
plain message list or a `BatchRequest`. -/
inductive BatchItem where
  | plain (messages : List PromptMessage) : BatchItem
  | request (r : BatchRequest) : BatchItem
deriving Repr, DecidableEq

/-- `isBatchRequest` from `src/types.ts`. Modelled from the spec: the
declaring `types.ts` revision is not under `src/`; per its use in
`LLMAgent.createBatch` it discriminates a `BatchRequest` object from a
plain message array. -/
def isBatchRequest : BatchItem → Bool
  | .plain _ => false
  | .request _ => true

/-- `LLMAgent.prependBasePrompt`: when the base prompt is truthy
(non-empty), a new array holding a developer message followed by the
caller's messages with any existing developer messages filtered out;
the caller's array itself is returned unchanged when the base prompt is
empty. -/
def prependBasePrompt (basePrompt : String) (messages : List PromptMessage) :
    List PromptMessage :=
  if basePrompt == "" then messages
  else
    { role := "developer", content := basePrompt }
      :: messages.filter (fun m => m.role != "developer")

/-- What `LLMAgent.createBatch`'s loop writes into one slot of the
caller-supplied `prompts` array: the base-prompt-prepended version of the
item (`{ ...prompt, messages: prependBasePrompt(...) }` for a
`BatchRequest`, `prependBasePrompt(prompt)` for a plain list). -/
def agentCreateBatchItem (basePrompt : String) : BatchItem → BatchItem
  | .request r => .request { r with messages := prependBasePrompt basePrompt r.messages }
  | .plain ms => .plain (prependBasePrompt basePrompt ms)

/-- The contents of the caller-supplied `prompts` array after
`LLMAgent.createBatch` runs its loop: the loop
`for (const idx in prompts) { prompts[idx] = ... }` overwrites every
element of the caller's array in place. -/
def agentCreateBatchPromptsAfter (basePrompt : String) (prompts : List BatchItem) :
    List BatchItem :=
  prompts.map (agentCreateBatchItem basePrompt)

/-- The contents of the caller-supplied `messages` array after
`LLMAgent.prompt`: `prependBasePrompt` builds a new array (or returns
the argument untouched) and nothing writes through the parameter, so the
caller's array is unchanged. -/
def agentPromptMessagesAfter (_basePrompt : String) (messages : List PromptMessage) :
    List PromptMessage :=
  messages

/-! ## Helper lemmas -/

theorem startsWithList_self : ∀ l : List Char, startsWithList l l = true
  | [] => rfl
  | c :: cs => by simp [startsWithList, startsWithList_self cs]

theorem listIncludes_self : ∀ n : List Char, listIncludes n n = true
  | [] => rfl
  | c :: cs => by
    simp [listIncludes, startsWithList_self]

theorem listIncludes_append_left (n : List Char) :
    ∀ l : List Char, listIncludes n (l ++ n) = true
  | [] => by simpa using listIncludes_self n
  | c :: l => by
    have ih := listIncludes_append_left n l
    simp [listIncludes, ih]

/-- `appendToLastUser` agrees with the `findLastIndex`-and-`set` recipe:
either no user message exists (and both report that), or there is a last
user message at index `n` and `appendToLastUser` rewrites exactly that
index. -/
theorem appendToLastUser_findLast (suffix : String) (ms : List PromptMessage) :
    (jsFindLastIndex (fun m => m.role == "user") ms = -1
      ∧ appendToLastUser suffix ms = none)
    ∨ (∃ (n : Nat) (m : PromptMessage),
        jsFindLastIndex (fun m => m.role == "user") ms = (n : Int)
        ∧ ms.get? n = some m
        ∧ appendToLastUser suffix ms
            = some (ms.set n { m with content := m.content ++ suffix })) := by
  induction ms with
  | nil => exact Or.inl ⟨rfl, rfl⟩
  | cons m ms ih =>
    rcases ih with ⟨h1, h2⟩ | ⟨n, m', h1, h2, h3⟩
    · by_cases hp : (m.role == "user") = true
      · refine Or.inr ⟨0, m, ?_, rfl, ?_⟩
        · simp [jsFindLastIndex, h1, hp]
        · simp [appendToLastUser, h2, hp, List.set]
      · refine Or.inl ⟨?_, ?_⟩
        · simp [jsFindLastIndex, h1, hp]
        · simp [appendToLastUser, h2, hp]
    · refine Or.inr ⟨n + 1, m', ?_, ?_, ?_⟩
      · simp only [jsFindLastIndex, h1]
        have : (0 : Int) ≤ (n : Int) := Int.natCast_nonneg n
        simp [this]
      · simpa using h2
      · simp [appendToLastUser, h3, List.set]

/-- `splitChar` never returns the empty list of groups. -/
theorem splitChar_ne_nil (sep : Char) : ∀ cs : List Char, splitChar sep cs ≠ []
  | [] => by simp [splitChar]
  | c :: cs => by
    simp only [splitChar]
    split
    · simp
    · split <;> simp

/-- `join` undoes `split`. -/
theorem joinSep_splitChar (sep : Char) : ∀ cs : List Char, joinSep sep (splitChar sep cs) = cs
  | [] => rfl
  | c :: cs => by
    have ih := joinSep_splitChar sep cs
    simp only [splitChar]
    by_cases h : (c == sep) = true
    · rw [if_pos h]
      obtain ⟨g, gs, hg⟩ : ∃ g gs, splitChar sep cs = g :: gs := by
        cases hsp : splitChar sep cs with
        | nil => exact absurd hsp (splitChar_ne_nil sep cs)
        | cons g gs => exact ⟨g, gs, rfl⟩
      rw [hg] at ih ⊢
      simp [joinSep, ih]
      exact (beq_iff_eq.mp h).symm
    · rw [if_neg h]
      cases hsp : splitChar sep cs with
      | nil => exact absurd hsp (splitChar_ne_nil sep cs)
      | cons g gs =>
        rw [hsp] at ih
        cases gs with
        | nil => simpa [joinSep] using congrArg (c :: ·) ih
        | cons g2 gs2 => simpa [joinSep] using congrArg (c :: ·) ih

/-- Splitting at the first separator: a separator-free prefix becomes the
first group. -/
theorem splitChar_append_sep (sep : Char) (post : List Char) :
    ∀ pre : List Char, pre.contains sep = false →
      splitChar sep (pre ++ sep :: post) = pre :: splitChar sep post
  | [], _ => by simp [splitChar]
  | c :: pre, h => by
    have hc : (sep == c) = false := by
      by_contra hne
      simp [List.contains] at h
      exact absurd (beq_iff_eq.mp (eq_true_of_ne_false hne)) (by simpa using h.1)
    have hpre : pre.contains sep = false := by
      simp [List.contains] at h ⊢
      exact h.2
    have ih := splitChar_append_sep sep post pre hpre
    simp only [List.cons_append, splitChar]
    rw [if_neg (by simp [BEq.comm] at hc ⊢; exact hc)]
    have ih2 : splitChar sep (pre.append (sep :: post)) = pre :: splitChar sep post := ih
    rw [ih2]

/-! ## Claims C6–C9 -/

/-- C6: for every message list and non-string example value,
prompt-injection enhancement (`enhancePromptWithStructure`, identical in
both providers) returns the input list with the structure instruction
appended to the content of the last `user` message, or, when no user
message exists, with a new user message carrying only the instruction
appended at the end; the embedding is a pure function — the JavaScript
method builds a copy and never mutates the caller's list or its message
objects. -/
theorem claim6_enhance_appends_to_last_user (messages : List PromptMessage)
    (sampleObj : JsValue) (_hns : typeofJs sampleObj ≠ "string") :
    enhancePromptWithStructure messages sampleObj
      = enhanceSpec messages (structureInstruction (structureOf sampleObj)) := by
  unfold enhancePromptWithStructure enhanceSpec
  rcases appendToLastUser_findLast
      ("\n\n" ++ structureInstruction (structureOf sampleObj)) messages with
    ⟨h1, h2⟩ | ⟨n, m, h1, h2, h3⟩
  · rw [h1, h2]
    simp
  · rw [h1, h3]
    have hn : (0 : Int) ≤ (n : Int) := Int.natCast_nonneg n
    simp only [hn, if_true, Int.toNat_natCast, h2]
    rw [String.append_assoc]

/-- C6 witness: a concrete instantiation with one user message and the
numeric example `3`. -/
theorem claim6_witness :
    enhancePromptWithStructure [⟨"user", "hi"⟩] (.num 3)
      = enhanceSpec [⟨"user", "hi"⟩] (structureInstruction (structureOf (.num 3))) :=
  claim6_enhance_appends_to_last_user [⟨"user", "hi"⟩] (.num 3) (by decide)

/-- The `Object.entries` recursion of `objectToGoogleSchema` is a `map`. -/
theorem googleSchemaFields_eq_map : ∀ fields : List (String × JsValue),
    googleSchemaFields fields = fields.map (fun kv => (kv.1, objectToGoogleSchema kv.2))
  | [] => rfl
  | (k, v) :: rest => by
    simp [googleSchemaFields, googleSchemaFields_eq_map rest]

/-- C7 (amended): the schema inferencer is total by construction and
mirrors the example's shape, except that a `null` example maps to the JS
`null` (not to the string-type fallback): booleans, numbers and strings
map to their marked primitive schema, unknown primitive type names fall
back to `STRING`, an empty array maps to an array-of-strings schema, a
non-empty array to an array schema inferred from the first element only,
and an object to an object schema over exactly its own keys in order. -/
theorem claim7_inferSchema_shape (b : Bool) (n : Int) (s : String) (x : JsValue)
    (xs : List JsValue) (fields : List (String × JsValue)) :
    objectToGoogleSchema .null = .nullValue
    ∧ objectToGoogleSchema (.bool b) = .prim "BOOLEAN"
    ∧ objectToGoogleSchema (.num n) = .prim "NUMBER"
    ∧ objectToGoogleSchema (.str s) = .prim "STRING"
    ∧ getGoogleSchemaType "symbol" = "STRING"
    ∧ getGoogleSchemaType "undefined" = "STRING"
    ∧ objectToGoogleSchema (.arr []) = .array (.prim "STRING")
    ∧ objectToGoogleSchema (.arr (x :: xs)) = .array (objectToGoogleSchema x)
    ∧ objectToGoogleSchema (.obj fields)
        = .object (fields.map (fun kv => (kv.1, objectToGoogleSchema kv.2)))
    ∧ (fields.map (fun kv => (kv.1, objectToGoogleSchema kv.2))).map Prod.fst
        = fields.map Prod.fst := by
  refine ⟨rfl, rfl, rfl, rfl, rfl, rfl, rfl, rfl, ?_, by simp⟩
  simp [objectToGoogleSchema, googleSchemaFields_eq_map]

/-- C7 counterexample: the claim's case split (primitive → marked type
with string fallback; object → object schema over own keys) fails at the
`null` example, which the code maps to the JS `null`, not to a
`{ type: 'STRING' }` marker nor to an empty object schema. -/
theorem claim7_counterexample :
    objectToGoogleSchema .null = .nullValue
    ∧ GoogleSchema.nullValue ≠ .prim "STRING"
    ∧ GoogleSchema.nullValue ≠ .object [] :=
  ⟨rfl, fun h => GoogleSchema.noConfusion h, fun h => GoogleSchema.noConfusion h⟩

/-- C7 witness: concrete instantiation of the amended shape theorem. -/
theorem claim7_witness :
    objectToGoogleSchema (.obj [("name", .str "")])
      = .object [("name", .prim "STRING")] := by
  have h := claim7_inferSchema_shape true 0 "" (.str "") [] [("name", .str "")]
  simpa using h.2.2.2.2.2.2.2.2.1

/-- C8: every batch operation of the Google provider, called with a
model name from its static descriptor list, throws deterministically
with a message naming the offending model, and hands zero requests to
the injected fetch function. -/
theorem claim8_google_batch_ops_fail_fast (model : String)
    (h : model ∈ googleGetModels.map ModelInfo.name) :
    googleCreateBatch model
      = ([], .error ("Batch requests are not supported by the Google Gemini API for model "
          ++ model))
    ∧ googleCheckBatch model
      = ([], .error ("Batch operations are not supported by the Google Gemini API for model "
          ++ model))
    ∧ googleRetrieveBatch model
      = ([], .error ("Batch operations are not supported by the Google Gemini API for model "
          ++ model))
    ∧ googleCancelBatch model
      = ([], .error ("Batch operations are not supported by the Google Gemini API for model "
          ++ model))
    ∧ listIncludes model.data
        ("Batch requests are not supported by the Google Gemini API for model "
          ++ model).data = true
    ∧ listIncludes model.data
        ("Batch operations are not supported by the Google Gemini API for model "
          ++ model).data = true := by
  have hinc1 : listIncludes model.data
      ("Batch requests are not supported by the Google Gemini API for model "
        ++ model).data = true := by
    rw [String.data_append]
    exact listIncludes_append_left model.data _
  have hinc2 : listIncludes model.data
      ("Batch operations are not supported by the Google Gemini API for model "
        ++ model).data = true := by
    rw [String.data_append]
    exact listIncludes_append_left model.data _
  simp only [googleGetModels, List.map, List.mem_cons, List.not_mem_nil, or_false] at h
  rcases h with h | h <;> subst h <;>
    exact ⟨rfl, rfl, rfl, rfl, hinc1, hinc2⟩

/-- C8 witness: the Gemini 2.0 Flash model from the descriptor list. -/
theorem claim8_witness :
    googleCreateBatch "Gemini 2.0 Flash"
      = ([], .error ("Batch requests are not supported by the Google Gemini API for model "
          ++ "Gemini 2.0 Flash")) :=
  (claim8_google_batch_ops_fail_fast "Gemini 2.0 Flash" (by simp [googleGetModels])).1

/-- C9: on either provider, when structured output was requested, the
decode step of the single-completion path is total: valid JSON
completion text decodes to its parse, invalid text degrades to the raw
text, and no error escapes (the embedded computation returns a
`ResultData` in every case — the source's `catch` turns the only
possible throw into the fallback). -/
theorem claim9_decode_roundtrip (text : String) :
    (∀ v, jsonParse text = some v →
      openaiComputeData true text = .parsed v ∧ googleComputeData true text = .parsed v)
    ∧ (jsonParse text = none →
      openaiComputeData true text = .raw text ∧ googleComputeData true text = .raw text) := by
  constructor
  · intro v hv
    simp [openaiComputeData, googleComputeData, parseJsonResponse, hv]
  · intro hv
    simp [openaiComputeData, googleComputeData, parseJsonResponse, hv]

/-- C9 witness: the valid JSON text `7` and the invalid text `oops`. -/
theorem claim9_witness :
    (openaiComputeData true "7" = .parsed (.num 7)
      ∧ googleComputeData true "7" = .parsed (.num 7))
    ∧ (openaiComputeData true "oops" = .raw "oops"
      ∧ googleComputeData true "oops" = .raw "oops") :=
  ⟨(claim9_decode_roundtrip "7").1 (.num 7) rfl, (claim9_decode_roundtrip "oops").2 rfl⟩

/-! ## Claim C10 -/

/-- The underscore-stripping expression on a string with at least one
underscore keeps exactly the portion after the first underscore. -/
theorem stripBatchId_strips_first_segment (pre post : String)
    (hpre : pre.data.contains '_' = false) :
    stripBatchId (pre ++ "_" ++ post) = post := by
  have hdata : (pre ++ "_" ++ post).data = pre.data ++ '_' :: post.data := by
    rw [String.data_append, String.data_append, show "_".data = ['_'] from rfl,
      List.append_assoc, List.singleton_append]
  unfold stripBatchId
  rw [hdata]
  have hcontains : (pre.data ++ '_' :: post.data).contains '_' = true := by simp
  rw [if_pos hcontains, splitChar_append_sep '_' post.data pre.data hpre]
  simp only [List.drop_succ_cons, List.drop_zero]
  rw [joinSep_splitChar]

/-- C10: on the OpenAI provider, `checkBatch`, `retrieveBatch` and
`cancelBatch` address the backend's batch endpoints with only the
portion of the batch id after the first underscore, while `checkBatch`'s
returned status record keeps the original unstripped id; an id without
an underscore is used verbatim. -/
theorem claim10_batch_id_stripping (pre post baseUrl outputFileId : String)
    (resp : BatchStatusResponse) (hpre : pre.data.contains '_' = false) :
    stripBatchId (pre ++ "_" ++ post) = post
    ∧ openaiCheckBatchUrl baseUrl (pre ++ "_" ++ post) = baseUrl ++ "/batches/" ++ post
    ∧ openaiCancelBatchUrl baseUrl (pre ++ "_" ++ post)
        = baseUrl ++ "/batches/" ++ post ++ "/cancel"
    ∧ openaiRetrieveBatchUrls baseUrl (pre ++ "_" ++ post) outputFileId
        = [baseUrl ++ "/batches/" ++ post,
           baseUrl ++ "/files/" ++ outputFileId ++ "/content"]
    ∧ (openaiCheckBatch (pre ++ "_" ++ post) resp).id = pre ++ "_" ++ post
    ∧ (∀ s : String, s.data.contains '_' = false → stripBatchId s = s) := by
  have hstrip := stripBatchId_strips_first_segment pre post hpre
  refine ⟨hstrip, ?_, ?_, ?_, rfl, ?_⟩
  · unfold openaiCheckBatchUrl
    rw [hstrip]
  · unfold openaiCancelBatchUrl
    rw [hstrip]
  · unfold openaiRetrieveBatchUrls openaiCheckBatchUrl
    rw [hstrip]
  · intro s hs
    unfold stripBatchId
    rw [if_neg (by rw [hs]; exact Bool.false_ne_true)]

/-- C10 witness: the agent-prefixed id `TestBatchAgent_batch_abc123`
(whose stripped remainder itself contains an underscore, pinning "after
the FIRST underscore") and the plain id `batchxyz`. -/
theorem claim10_witness :
    stripBatchId ("TestBatchAgent" ++ "_" ++ "batch_abc123") = "batch_abc123"
    ∧ (openaiCheckBatch ("TestBatchAgent" ++ "_" ++ "batch_abc123")
        { id := "batch_abc123", status := "completed" }).id
        = "TestBatchAgent" ++ "_" ++ "batch_abc123"
    ∧ stripBatchId "batchxyz" = "batchxyz" := by
  have h := claim10_batch_id_stripping "TestBatchAgent" "batch_abc123"
    "https://api.openai.com/v1" "file-1" { id := "batch_abc123", status := "completed" }
    (by decide)
  exact ⟨h.1, h.2.2.2.2.1, h.2.2.2.2.2 "batchxyz" (by decide)⟩

/-! ## Claim C5 -/

/-- A `map` fixes a list exactly when it fixes every element. -/
theorem map_eq_self_iff_forall {α : Type} (f : α → α) :
    ∀ l : List α, l.map f = l ↔ ∀ x ∈ l, f x = x
  | [] => by simp
  | x :: xs => by
    simp [map_eq_self_iff_forall f xs]

/-- C5 (amended): the agent's prompt path is pure — the caller-supplied
message sequence is unchanged after the call — but `LLMAgent.createBatch`
overwrites each element of the caller-supplied prompts array in place
with its base-prompt-prepended version, so that array is left unmodified
only when every item is already a fixed point of the prepending (in
particular whenever the base prompt is empty). -/
theorem claim5_prepend_purity (basePrompt : String) (messages : List PromptMessage)
    (prompts : List BatchItem) :
    agentPromptMessagesAfter basePrompt messages = messages
    ∧ agentCreateBatchPromptsAfter basePrompt prompts
        = prompts.map (agentCreateBatchItem basePrompt)
    ∧ (agentCreateBatchPromptsAfter basePrompt prompts = prompts
        ↔ ∀ p ∈ prompts, agentCreateBatchItem basePrompt p = p)
    ∧ agentCreateBatchPromptsAfter "" prompts = prompts := by
  refine ⟨rfl, rfl, map_eq_self_iff_forall _ prompts, ?_⟩
  unfold agentCreateBatchPromptsAfter
  rw [map_eq_self_iff_forall]
  intro p _
  cases p <;> simp [agentCreateBatchItem, prependBasePrompt]

/-- C5 counterexample: after `createBatch` on an agent with a non-empty
base prompt, the caller's prompts array no longer holds the original
item — the claim's "left unmodified after the call" fails. -/
theorem claim5_counterexample :
    agentCreateBatchPromptsAfter "You are a helpful assistant."
        [.plain [⟨"user", "What is the capital of France?"⟩]]
      ≠ [.plain [⟨"user", "What is the capital of France?"⟩]] := by
  decide

/-- C5 witness: concrete instantiation of the purity statement for the
prompt path and the empty-base-prompt fixed point. -/
theorem claim5_witness :
    agentPromptMessagesAfter "base" [⟨"user", "hi"⟩] = [⟨"user", "hi"⟩]
    ∧ agentCreateBatchPromptsAfter "" [.plain [⟨"user", "hi"⟩]]
        = [.plain [⟨"user", "hi"⟩]] := by
  have h := claim5_prepend_purity "base" [⟨"user", "hi"⟩] [.plain [⟨"user", "hi"⟩]]
  exact ⟨h.1, (claim5_prepend_purity "base" [⟨"user", "hi"⟩] [.plain [⟨"user", "hi"⟩]]).2.2.2⟩

/-! ## Claim C1 -/

/-- C1 (amended): the `retrieveBatch` loop is the per-line filter-map of
`retrieveLineResult` — lines are skipped when they fail to parse, carry
an error payload, lack a response body, **or** (when a truthy
object-typed sample was supplied) their completion text is not valid
JSON; every other line yields one result, in line order, with `data`
the JSON parse when an object-typed sample was supplied and the raw
text otherwise. -/
theorem claim1_retrieve_line_processing (sampleObj : Option JsValue) (model : String)
    (lines : List RawLine) :
    openaiRetrieveBatchProcess sampleObj model lines
      = lines.filterMap (retrieveLineResult sampleObj model) := by
  induction lines with
  | nil => rfl
  | cons l rest ih =>
    cases l with
    | unparsable =>
      simpa [openaiRetrieveBatchProcess, retrieveLineResult] using ih
    | line r =>
      cases hr : r.response with
      | none =>
        simp [openaiRetrieveBatchProcess, retrieveLineResult, hr, ih]
      | some body =>
        by_cases he : r.error.isSome
        · simp [openaiRetrieveBatchProcess, retrieveLineResult, hr, he, ih]
        · by_cases hso : structuredObjectSample sampleObj
          · cases hp : parseJsonResponse body.content with
            | ok v =>
              simp [openaiRetrieveBatchProcess, retrieveLineResult, hr, he, hso, hp, ih]
            | error e =>
              simp [openaiRetrieveBatchProcess, retrieveLineResult, hr, he, hso, hp, ih]
          · simp [openaiRetrieveBatchProcess, retrieveLineResult, hr, he, hso, ih]

/-- C1 counterexample: a line that parses, has no error payload and has
a response body — but whose completion text is not valid JSON — while an
object-typed sample is set: the claim says it survives with `data`
degraded to the raw text (as on the single-completion path), yet the
code excludes it and returns the empty result list. -/
theorem claim1_counterexample :
    openaiRetrieveBatchProcess (some (.obj [("name", .str "")])) "GPT-4o-mini"
      [.line { custom_id := "batch_0",
               error := none,
               response := some { content := "Paris is the capital.",
                                  prompt_tokens := 3, completion_tokens := 5,
                                  total_tokens := 8 } }]
      = []
    ∧ List.filterMap
        (retrieveLineResultAsClaimed (some (.obj [("name", .str "")])) "GPT-4o-mini")
        [.line { custom_id := "batch_0",
                 error := none,
                 response := some { content := "Paris is the capital.",
                                    prompt_tokens := 3, completion_tokens := 5,
                                    total_tokens := 8 } }]
      = [{ text := "Paris is the capital.",
           data := .raw "Paris is the capital.",
           promptTokens := 3, completionTokens := 5, totalTokens := 8,
           model := "openai/GPT-4o-mini", provider := "openai" }] := by
  constructor
  · rfl
  · rfl

/-- C1 witness: the amended filter-map characterization instantiated at
a mixed concrete document (one surviving line, one error line). -/
theorem claim1_witness :
    openaiRetrieveBatchProcess none "GPT-4o-mini"
      [.line { custom_id := "a_0", error := none,
               response := some { content := "Paris", prompt_tokens := 1,
                                  completion_tokens := 2, total_tokens := 3 } },
       .line { custom_id := "a_1", error := some "boom", response := none }]
      = List.filterMap (retrieveLineResult none "GPT-4o-mini")
          [.line { custom_id := "a_0", error := none,
                   response := some { content := "Paris", prompt_tokens := 1,
                                      completion_tokens := 2, total_tokens := 3 } },
           .line { custom_id := "a_1", error := some "boom", response := none }] :=
  claim1_retrieve_line_processing none "GPT-4o-mini" _

/-! ## Claim C4 -/

/-- C4 (amended): on either provider, structured-output enforcement is
triggered iff an example value is supplied, is truthy, and is not of
string type — so the number `0`, the boolean `false` and the empty
string never trigger it (JavaScript truthiness), while any truthy
non-string example (including an empty object) does; when it is not
triggered, both providers' preflights send the caller's messages
untouched with no native structured-output attachment, regardless of
model capability. -/
theorem claim4_structured_trigger (v : JsValue) (messages : List PromptMessage)
    (options : LLMRequestOptions) :
    needsStructuredOutput none = false
    ∧ (needsStructuredOutput (some v) = true ↔ (truthyJs v = true ∧ typeofJs v ≠ "string"))
    ∧ (typeofJs v = "string" → needsStructuredOutput (some v) = false)
    ∧ needsStructuredOutput (some (.obj [])) = true
    ∧ needsStructuredOutput (some (.num 0)) = false
    ∧ needsStructuredOutput (some (.bool false)) = false
    ∧ (needsStructuredOutput options.sampleObj = false →
        openaiPromptPreflight messages "GPT-4o-mini" options
          = .ok { model := "gpt-4o-mini", messages := messages, responseFormatJson := false }
        ∧ googlePromptPreflight messages "Gemini 2.0 Flash" options
          = .ok { messages := messages, responseMimeJson := false,
                  responseSchema := none }) := by
  refine ⟨rfl, ?_, ?_, rfl, rfl, rfl, ?_⟩
  · cases v <;> simp [needsStructuredOutput, truthyJs, typeofJs]
  · intro hs
    cases v <;> simp_all [needsStructuredOutput, typeofJs]
  · intro hns
    constructor
    · simp [openaiPromptPreflight, openaiGetModels, List.find?, hns]
    · simp [googlePromptPreflight, googleGetModels, List.find?, hns]

/-- C4 counterexample: the number `0` is a supplied non-string example,
yet it does not trigger structured-output enforcement (the code tests
JavaScript truthiness of the sample, and `0` is falsy); the OpenAI
preflight consequently sends the request as plain text. -/
theorem claim4_counterexample :
    needsStructuredOutput (some (.num 0)) = false
    ∧ typeofJs (.num 0) ≠ "string"
    ∧ openaiPromptPreflight [⟨"user", "hi"⟩] "GPT-4o-mini" { sampleObj := some (.num 0) }
        = .ok { model := "gpt-4o-mini", messages := [⟨"user", "hi"⟩],
                responseFormatJson := false } := by
  refine ⟨rfl, by decide, rfl⟩

/-- C4 witness: the amended trigger rule instantiated at the empty
object and at a falsy sample. -/
theorem claim4_witness :
    (needsStructuredOutput (some (.obj [])) = true
      ↔ (truthyJs (.obj []) = true ∧ typeofJs (.obj []) ≠ "string"))
    ∧ (needsStructuredOutput { sampleObj := some (.bool false) : LLMRequestOptions }.sampleObj
          = false →
        openaiPromptPreflight [⟨"user", "hi"⟩] "GPT-4o-mini"
            { sampleObj := some (.bool false) }
          = .ok { model := "gpt-4o-mini", messages := [⟨"user", "hi"⟩],
                  responseFormatJson := false }
        ∧ googlePromptPreflight [⟨"user", "hi"⟩] "Gemini 2.0 Flash"
            { sampleObj := some (.bool false) }
          = .ok { messages := [⟨"user", "hi"⟩], responseMimeJson := false,
                  responseSchema := none }) :=
  ⟨(claim4_structured_trigger (.obj []) [⟨"user", "hi"⟩] {}).2.1,
   (claim4_structured_trigger (.obj []) [⟨"user", "hi"⟩]
      { sampleObj := some (.bool false) }).2.2.2.2.2.2⟩

/-! ## Claims C2 and C3 — createBatch -/

/-- Two strings with different first characters differ. -/
theorem string_head_ne {s t : String} {c d : Char} (hc : s.data.head? = some c)
    (hd : t.data.head? = some d) (hne : c ≠ d) : s ≠ t := by
  intro h
  subst h
  rw [hc] at hd
  exact hne (Option.some.inj hd)

/-- The per-item validation errors of the `createBatch` loop are not the
`"json"`-precondition error. -/
theorem promptErr_ne_jsonError (t u : String) :
    ("Prompt " ++ t) ++ u ≠ jsonErrorMessage := by
  refine string_head_ne (c := 'P') (d := 'A') ?_ rfl (by decide)
  rw [String.data_append, String.data_append,
    show "Prompt ".data = 'P' :: "rompt ".data from rfl]
  simp

/-- Once the global `"json"` check has passed, nothing later in
`createBatch` can raise the `"json"`-precondition error. -/
theorem openaiCreateBatchLoop_ne_jsonError (now : Nat → Nat) (mi : ModelInfo)
    (options : BatchRequestOptions) (needsSO : Bool) :
    ∀ (ps : List BatchRequest) (i len : Nat),
      openaiCreateBatchLoop now mi options needsSO i len ps ≠ .error jsonErrorMessage
  | [], _, _ => by simp [openaiCreateBatchLoop]
  | p :: rest, i, len => by
    intro h
    simp only [openaiCreateBatchLoop] at h
    split at h
    · exact promptErr_ne_jsonError _ _ (Except.error.inj h)
    split at h
    · exact promptErr_ne_jsonError _ _ (Except.error.inj h)
    split at h
    all_goals
      split at h
      · exact absurd (Except.error.inj h) (by decide)
      · split at h
        next lines' heq => exact absurd h (by simp)
        next e heq =>
          rw [Except.error.inj h] at heq
          exact openaiCreateBatchLoop_ne_jsonError now mi options needsSO rest (i + 1) _ heq

/-- The `createBatch` loop, when it succeeds, emits exactly one line per
item in submission order, whose correlation id is derived by
`deriveRequestId` from the item's index and the loop's clock reading at
that index. -/
theorem openaiCreateBatchLoop_ids (now : Nat → Nat) (mi : ModelInfo)
    (options : BatchRequestOptions) (needsSO : Bool) :
    ∀ (ps : List BatchRequest) (i len : Nat) (lines : List OpenAIBatchLine),
      openaiCreateBatchLoop now mi options needsSO i len ps = .ok lines →
      lines.length = ps.length
      ∧ ∀ j p, ps.get? j = some p →
          (lines.map (fun l => l.custom_id)).get? j
            = some (deriveRequestId (now (i + j)) (i + j) options p.id)
  | [], i, len, lines, h => by
    simp only [openaiCreateBatchLoop] at h
    cases h
    exact ⟨rfl, fun j p hp => by simp at hp⟩
  | p :: rest, i, len, lines, h => by
    simp only [openaiCreateBatchLoop] at h
    split at h
    · exact absurd h (by simp)
    split at h
    · exact absurd h (by simp)
    split at h
    all_goals
      split at h
      · exact absurd h (by simp)
      · split at h
        next lines' heq =>
          cases h
          have ih := openaiCreateBatchLoop_ids now mi options needsSO rest (i + 1) _ lines' heq
          refine ⟨by simp [ih.1], ?_⟩
          intro j q hq
          cases j with
          | zero =>
            simp only [List.get?] at hq
            cases hq
            simp
          | succ j =>
            have hj := ih.2 j q (by simpa using hq)
            simp only [Nat.add_succ, Nat.succ_add] at hj ⊢
            simpa using hj
        next e heq => exact absurd h (by simp)

/-- C2 (amended): when `createBatch` succeeds it returns the external
job id plus exactly one correlation id per submitted item, in submission
order; the `j`-th id is derived by the code's rule — the sanitized
item-supplied id when that is non-empty, otherwise the concatenation of
the sanitized agent name (when truthy), the sanitized batch name (when
truthy), the clock reading and the item index, joined by underscores. -/
theorem claim2_batch_correlation_ids (now : Nat → Nat) (prompts : List BatchRequest)
    (model : String) (options : BatchRequestOptions) (lines : List OpenAIBatchLine)
    (respId : String)
    (h : openaiCreateBatchPreflight now prompts model options = .ok lines) :
    (openaiCreateBatchResult lines respId).batchId = respId
    ∧ (openaiCreateBatchResult lines respId).requestIds.length = prompts.length
    ∧ ∀ j p, prompts.get? j = some p →
        (openaiCreateBatchResult lines respId).requestIds.get? j
          = some (deriveRequestId (now j) j options p.id) := by
  unfold openaiCreateBatchPreflight at h
  split at h
  · exact absurd h (by simp)
  next mi hfind =>
    split at h
    · exact absurd h (by simp)
    split at h
    · exact absurd h (by simp)
    split at h
    · exact absurd h (by simp)
    have hids := openaiCreateBatchLoop_ids now mi options
      (needsStructuredOutput options.sampleObj) prompts 0 0 lines h
    refine ⟨rfl, by simpa [openaiCreateBatchResult] using hids.1, ?_⟩
    intro j p hp
    have := hids.2 j p hp
    simpa [openaiCreateBatchResult] using this

/-- C2 counterexample: with a non-empty batch name (the claim's first
non-empty source) and an item-supplied id, the code derives the id from
the item-supplied id, not from the batch name — two items differing only
in their supplied ids get different correlation ids, which "first
non-empty source wins" (batch name first) forbids. -/
theorem claim2_counterexample :
    deriveRequestId 0 0 { batchName := some "team" } (some "alpha") = "alpha"
    ∧ deriveRequestId 0 0 { batchName := some "team" } (some "beta") = "beta"
    ∧ ("alpha" : String) ≠ "beta"
    ∧ deriveRequestId 1700 2 { batchName := some "My Batch!", agentName := some "Agent 1" }
        none = "Agent1_MyBatch_1700_2" := by
  refine ⟨rfl, rfl, by decide, rfl⟩

set_option maxRecDepth 10000 in
/-- C2 witness: a concrete one-item batch submission. -/
theorem claim2_witness :
    (openaiCreateBatchResult
        [{ custom_id := "5_0", method := "POST", url := "/v1/chat/completions",
           body := { model := "gpt-4o-mini", messages := [⟨"user", "hi"⟩],
                     responseFormatJson := false } }] "batch_99").requestIds.get? 0
      = some (deriveRequestId 5 0 {} (none : Option String)) := by
  have h := claim2_batch_correlation_ids (fun _ => 5)
    [{ id := none, messages := [⟨"user", "hi"⟩] }] "GPT-4o-mini" {}
    [{ custom_id := "5_0", method := "POST", url := "/v1/chat/completions",
       body := { model := "gpt-4o-mini", messages := [⟨"user", "hi"⟩],
                 responseFormatJson := false } }] "batch_99" rfl
  exact h.2.2 0 { id := none, messages := [⟨"user", "hi"⟩] } rfl

/-- C3 (amended): on the OpenAI backend the `"json"`-substring
precondition applies to `prompt` per call — structured output requested
and no outgoing message containing `"json"` (case-insensitive) throws
the `ValidationError` before any fetch, and the presence of the
substring removes the error — but on `createBatch` the check is global
across all items, not per item: it throws (again before any fetch) only
when **no** message of **any** item contains the substring, and one
conforming item silences the error for the whole batch. -/
theorem claim3_json_precondition (messages : List PromptMessage)
    (prompts : List BatchRequest) (options : LLMRequestOptions)
    (boptions : BatchRequestOptions) (baseUrl : String) (now : Nat → Nat) :
    (needsStructuredOutput options.sampleObj = true →
      messages.any (fun m => jsContainsJson m.content) = false →
      openaiPromptPreflight messages "GPT-4o-mini" options = .error jsonErrorMessage
      ∧ openaiPromptFetches baseUrl messages "GPT-4o-mini" options = [])
    ∧ (needsStructuredOutput options.sampleObj = true →
      messages.any (fun m => jsContainsJson m.content) = true →
      (openaiPromptPreflight messages "GPT-4o-mini" options).isOk = true)
    ∧ (needsStructuredOutput boptions.sampleObj = true →
      prompts.length ≤ 50000 →
      prompts.any (fun p => p.messages.any (fun m => jsContainsJson m.content)) = false →
      openaiCreateBatchPreflight now prompts "GPT-4o-mini" boptions = .error jsonErrorMessage
      ∧ openaiCreateBatchFetches baseUrl now prompts "GPT-4o-mini" boptions = [])
    ∧ (prompts.any (fun p => p.messages.any (fun m => jsContainsJson m.content)) = true →
      openaiCreateBatchPreflight now prompts "GPT-4o-mini" boptions
        ≠ .error jsonErrorMessage) := by
  refine ⟨?_, ?_, ?_, ?_⟩
  · intro hso hany
    have hpre : openaiPromptPreflight messages "GPT-4o-mini" options
        = .error jsonErrorMessage := by
      simp [openaiPromptPreflight, openaiGetModels, List.find?, hso, hany]
    exact ⟨hpre, by simp [openaiPromptFetches, hpre]⟩
  · intro hso hany
    simp [openaiPromptPreflight, openaiGetModels, List.find?, hso, hany, Except.isOk,
      Except.toBool]
  · intro hso hlen hany
    have hnotgt : ¬ prompts.length > 50000 := by omega
    have hpre : openaiCreateBatchPreflight now prompts "GPT-4o-mini" boptions
        = .error jsonErrorMessage := by
      simp [openaiCreateBatchPreflight, openaiGetModels, List.find?, hso, hany, hnotgt]
    exact ⟨hpre, by simp [openaiCreateBatchFetches, hpre]⟩
  · intro hany h
    unfold openaiCreateBatchPreflight at h
    split at h
    · refine string_head_ne (t := jsonErrorMessage) (c := 'M') (d := 'A') ?_ rfl (by decide) (Except.error.inj h)
      rw [String.data_append, show "Model not found: ".data = 'M' :: "odel not found: ".data
        from rfl]
      simp
    · split at h
      · refine string_head_ne (t := jsonErrorMessage) (c := 'M') (d := 'A') ?_ rfl (by decide) (Except.error.inj h)
        rw [String.data_append, String.data_append,
          show "Model ".data = 'M' :: "odel ".data from rfl]
        simp
      · split at h
        · exact absurd (Except.error.inj h) (by decide)
        · split at h
          next hcond =>
            rw [hany] at hcond
            simp at hcond
          next hcond =>
            exact openaiCreateBatchLoop_ne_jsonError now _ boptions _ prompts 0 0 h

set_option maxRecDepth 10000 in
/-- C3 counterexample: a two-item batch with structured output
requested, where the first item mentions `json` and the second does not:
the claimed per-item precondition would throw, but `createBatch`
succeeds. -/
theorem claim3_counterexample :
    (openaiCreateBatchPreflight (fun _ => 0)
        [{ id := none, messages := [⟨"user", "Answer in json."⟩] },
         { id := none, messages := [⟨"user", "No marker here."⟩] }]
        "GPT-4o-mini" { sampleObj := some (.obj []) }).isOk = true
    ∧ ([({ role := "user", content := "No marker here." } : PromptMessage)].any
        (fun m => jsContainsJson m.content)) = false
    ∧ needsStructuredOutput (some (.obj [])) = true := by
  refine ⟨rfl, rfl, rfl⟩

set_option maxRecDepth 10000 in
/-- C3 witness: the amended precondition at concrete inputs — a
violating prompt call, a conforming prompt call, a violating batch, and
a batch with one conforming item. -/
theorem claim3_witness :
    openaiPromptPreflight [⟨"user", "hello"⟩] "GPT-4o-mini" { sampleObj := some (.obj []) }
      = .error jsonErrorMessage
    ∧ (openaiPromptPreflight [⟨"user", "hello json"⟩] "GPT-4o-mini"
        { sampleObj := some (.obj []) }).isOk = true
    ∧ openaiCreateBatchPreflight (fun _ => 0) [{ id := none, messages := [⟨"user", "hello"⟩] }]
        "GPT-4o-mini" { sampleObj := some (.obj []) } = .error jsonErrorMessage
    ∧ openaiCreateBatchPreflight (fun _ => 0)
        [{ id := none, messages := [⟨"user", "hello json"⟩] }]
        "GPT-4o-mini" { sampleObj := some (.obj []) } ≠ .error jsonErrorMessage := by
  refine ⟨?_, ?_, ?_, ?_⟩
  · exact ((claim3_json_precondition [⟨"user", "hello"⟩] [] { sampleObj := some (.obj []) }
      {} "" (fun _ => 0)).1 rfl rfl).1
  · exact (claim3_json_precondition [⟨"user", "hello json"⟩] []
      { sampleObj := some (.obj []) } {} "" (fun _ => 0)).2.1 rfl rfl
  · exact ((claim3_json_precondition [] [{ id := none, messages := [⟨"user", "hello"⟩] }]
      {} { sampleObj := some (.obj []) } "" (fun _ => 0)).2.2.1 rfl (by decide) rfl).1
  · exact (claim3_json_precondition [] [{ id := none, messages := [⟨"user", "hello json"⟩] }]
      {} { sampleObj := some (.obj []) } "" (fun _ => 0)).2.2.2 rfl

end LlmAgents
